import Mathlib

/-!
Verification of the interactive terminal session bridge of the
Finetune-LLM-Using-CLI repository.

The client side (the `BauhausTerminal` component and the `AGENTS` table) is
embedded directly from the TypeScript source. The server side (process
launcher, pty session, session registry, connection bridge) is not present in
the source tree — only its client callers are — so those components are
modelled from the specification, as marked on each definition.
-/

namespace BauhausTerminal

/-- WebSocket ready states, as in the browser WebSocket API used by the
`BauhausTerminal` component. -/
inductive ReadyState
  | CONNECTING
  | OPEN
  | CLOSING
  | CLOSED
deriving DecidableEq, Repr

/-- Client-to-server control frames built by the terminal component:
`input`, `resize`, `stop` and `kill` JSON messages. -/
inductive OutgoingFrame
  | input (data : String)
  | resize (cols rows : Nat)
  | stop
  | kill
deriving DecidableEq, Repr

/-- The view the client has of its WebSocket: the ready state of the socket and the
ordered list of frames transmitted so far. -/
structure WsClient where
  readyState : ReadyState
  sent : List OutgoingFrame
deriving DecidableEq, Repr

/-- Function `sendInput` from BauhausTerminal.tsx: sends an `input` frame only when
`ws.current?.readyState === WebSocket.OPEN`; otherwise does nothing. -/
def sendInput (ws : WsClient) (data : String) : WsClient :=
  if ws.readyState = ReadyState.OPEN then
    { ws with sent := ws.sent ++ [OutgoingFrame.input data] }
  else ws

/-- Function `stop` from BauhausTerminal.tsx: sends a `stop` frame only when the
socket is OPEN; otherwise does nothing. -/
def stop (ws : WsClient) : WsClient :=
  if ws.readyState = ReadyState.OPEN then
    { ws with sent := ws.sent ++ [OutgoingFrame.stop] }
  else ws

/-- Function `kill` from BauhausTerminal.tsx: when the socket is OPEN, sends a `kill`
frame and then calls `close()` (which moves the socket to CLOSING);
otherwise does nothing. -/
def kill (ws : WsClient) : WsClient :=
  if ws.readyState = ReadyState.OPEN then
    { ws with sent := ws.sent ++ [OutgoingFrame.kill],
              readyState := ReadyState.CLOSING }
  else ws

/-- Function `handleResize` from BauhausTerminal.tsx: sends a `resize` frame with the
current terminal geometry only when the socket is OPEN. -/
def handleResize (ws : WsClient) (cols rows : Nat) : WsClient :=
  if ws.readyState = ReadyState.OPEN then
    { ws with sent := ws.sent ++ [OutgoingFrame.resize cols rows] }
  else ws

/-- Result of `JSON.parse` run by the client on an incoming WebSocket message:
a recognised frame (`output`, `status`, `error`), a well-formed JSON object
whose `type` is not one of those, or data that is not JSON at all
(`JSON.parse` throws). -/
inductive ClientEvent
  | output (data : String)
  | status (running : Bool) (message : Option String)
  | error (message : String)
  | unknownType (raw : String)
  | notJson (raw : String)
deriving DecidableEq, Repr

/-- The xterm terminal as the client mutates it: the ordered chunks written
to the screen, the `isRunning` flag, and any warnings the component logs
(the source logs none in `onmessage`). -/
structure TermView where
  screen : List String
  isRunning : Bool
  warnings : List String
deriving DecidableEq, Repr

/-- Client connection state: the socket plus the terminal view. -/
structure ClientState where
  ws : WsClient
  term : TermView
deriving DecidableEq, Repr

/-- Handler `websocket.onmessage` from BauhausTerminal.tsx: `output` frames are
written to the terminal; `status` frames set `isRunning` and, when not
running with a message, write the message; `error` frames write an error
line; JSON frames with any other `type` fall through all branches and are
ignored; non-JSON data hits the `catch` and is written raw to the terminal.
No branch closes the socket or logs a warning. -/
def onmessage (c : ClientState) (ev : ClientEvent) : ClientState :=
  match ev with
  | ClientEvent.output data =>
      { c with term := { c.term with screen := c.term.screen ++ [data] } }
  | ClientEvent.status running message =>
      let t := { c.term with isRunning := running }
      match running, message with
      | false, some m =>
          { c with term := { t with screen := t.screen ++ ["\x1b[33m" ++ m ++ "\x1b[0m\r\n"] } }
      | _, _ => { c with term := t }
  | ClientEvent.error m =>
      { c with term := { c.term with screen := c.term.screen ++ ["\x1b[31mError: " ++ m ++ "\x1b[0m\r\n"] } }
  | ClientEvent.unknownType _ => c
  | ClientEvent.notJson raw =>
      { c with term := { c.term with screen := c.term.screen ++ [raw] } }

/-- Processing of a sequence of incoming messages, in receipt order. -/
def processMessages (c : ClientState) (evs : List ClientEvent) : ClientState :=
  evs.foldl onmessage c

/-- A concrete client state: freshly opened socket, empty terminal. -/
def freshClient : ClientState :=
  { ws := { readyState := ReadyState.OPEN, sent := [] },
    term := { screen := [], isRunning := false, warnings := [] } }

/-- A concrete client state whose socket is CLOSED. -/
def closedClient : ClientState :=
  { ws := { readyState := ReadyState.CLOSED, sent := [] },
    term := { screen := [], isRunning := false, warnings := [] } }

end BauhausTerminal

/-- The closed set of supported agent identifiers, from the `AGENTS` table in
frontend/src/pages/Training.tsx. -/
def AGENTS : List String := ["claude", "gemini", "codex", "qwen", "aider", "bash"]

namespace TermBridge

/-- Modelled from the spec: a `SessionKey` is the composite of `project_id`
and `agent_id` identifying at most one live session (spec data model). The
server component holding it (terminal_manager) is absent from the source
tree. -/
structure SessionKey where
  project_id : String
  agent_id : String
deriving DecidableEq, Repr

/-- Modelled from the spec: the PtySession state machine
Starting, Running, Stopping, Exited of the absent server component. -/
inductive SessionPhase
  | starting
  | running
  | stopping
  | exited
deriving DecidableEq, Repr

/-- Modelled from the spec: a `PtySession` owns one spawned process; `pid`
identifies the spawn, `phase` its state-machine state. -/
structure PtySession where
  key : SessionKey
  pid : Nat
  phase : SessionPhase
deriving DecidableEq, Repr

/-- Whether the process of the session has not yet exited. -/
def PtySession.alive (s : PtySession) : Bool :=
  match s.phase with
  | SessionPhase.exited => false
  | _ => true

/-- Modelled from the spec: the error taxonomy of the absent server
component (§7): `ConfigurationError`, `LaunchError`,
`AttachConflictError`. -/
inductive BridgeErr
  | ConfigurationError (agent_id : String)
  | LaunchError (exe : String)
  | AttachConflictError
deriving DecidableEq, Repr

/-- Human-readable message carried by a client-visible `error` frame. -/
def errMsg : BridgeErr → String
  | BridgeErr.ConfigurationError a => "unknown agent: " ++ a
  | BridgeErr.LaunchError e => "failed to launch: " ++ e
  | BridgeErr.AttachConflictError => "session already attached"

/-- Server-to-client control frames: `output`, `status`, `error`. -/
inductive ServerFrame
  | output (data : String)
  | status (running : Bool) (message : Option String)
  | error (message : String)
deriving DecidableEq, Repr

/-- Modelled from the spec: server-wide launcher and registry state of the
absent server component; `registry` is the table of registered sessions,
`nextPid` the next process id the OS would hand out, and `spawned` counts
every process spawn that has occurred. -/
structure ServerState where
  registry : List PtySession
  nextPid : Nat
  spawned : Nat
deriving DecidableEq, Repr

/-- Modelled from the spec: the static resolution by the Process Launcher of an
`agent_id` into an executable, defined over the closed `AGENTS` set that the
Training page of the client enumerates; unknown ids do not resolve. -/
def resolveAgent (agent_id : String) : Option String :=
  if agent_id ∈ AGENTS then some agent_id else none

/-- Modelled from the spec: the Process Launcher of the absent server
component (§4.1). Resolution failure yields `ConfigurationError` before any
process exists; spawn failure (tracked by the environment predicate
`spawnOk`) yields `LaunchError`; on success a new process is spawned and an
unregistered `PtySession` is returned. -/
def launch (spawnOk : String → Bool) (st : ServerState) (k : SessionKey) :
    ServerState × Except BridgeErr PtySession :=
  match resolveAgent k.agent_id with
  | none => (st, Except.error (BridgeErr.ConfigurationError k.agent_id))
  | some exe =>
      if spawnOk exe then
        ({ st with nextPid := st.nextPid + 1, spawned := st.spawned + 1 },
         Except.ok { key := k, pid := st.nextPid, phase := SessionPhase.running })
      else (st, Except.error (BridgeErr.LaunchError exe))

/-- The registered live session for a key, when one exists. -/
def findLive (reg : List PtySession) (k : SessionKey) : Option PtySession :=
  reg.find? (fun s => decide (s.key = k) && s.alive)

/-- Modelled from the spec: `get_or_create` of the Session Registry (§4.3),
an atomic check-then-create — if a live session exists for the key it is
returned unchanged, otherwise the launcher is invoked and the new session
registered. -/
def get_or_create (spawnOk : String → Bool) (st : ServerState) (k : SessionKey) :
    ServerState × Except BridgeErr PtySession :=
  match findLive st.registry k with
  | some s => (st, Except.ok s)
  | none =>
      match launch spawnOk st k with
      | (st', Except.ok s) =>
          ({ st' with registry := st'.registry ++ [s] }, Except.ok s)
      | (st', Except.error e) => (st', Except.error e)

/-- N serialized invocations of `get_or_create` with the same key — the
concurrency contract of the spec makes concurrent same-key callers serialize, so
their joint effect is this sequential composition. -/
def callN (spawnOk : String → Bool) (st : ServerState) (k : SessionKey) :
    Nat → ServerState × List (Except BridgeErr PtySession)
  | 0 => (st, [])
  | n + 1 =>
      let p := get_or_create spawnOk st k
      let q := callN spawnOk p.1 k n
      (q.1, p.2 :: q.2)

/-- Number of live sessions registered for a key. -/
def liveCount (reg : List PtySession) (k : SessionKey) : Nat :=
  (reg.filter (fun s => decide (s.key = k) && s.alive)).length

/-- The registry invariant: at most one live session per key. -/
def AtMostOneLive (reg : List PtySession) : Prop :=
  ∀ k : SessionKey, liveCount reg k ≤ 1

/-- Modelled from the spec: bridge-level server state — the launcher and
registry state, which keys are bound to which connection (single-consumer
policy), and which connections have active pumps. -/
structure BridgeState where
  server : ServerState
  bound : List (SessionKey × Nat)
  pumps : List Nat
deriving DecidableEq, Repr

/-- The connection currently bound to a key, when any. -/
def lookupBound (b : List (SessionKey × Nat)) (k : SessionKey) : Option Nat :=
  (b.find? (fun p => decide (p.1 = k))).map Prod.snd

/-- Modelled from the spec: the connect path of the Connection Bridge (§4.4) of
the absent server component. Refuses with an `error` frame when another
connection is already bound to the key; otherwise obtains a session from
the registry (creating one if absent), binds the connection, starts its
pumps and emits the initial running status frame. Returns the new state,
the frames sent to this client, and whether the connection was accepted. -/
def connect (spawnOk : String → Bool) (st : BridgeState) (conn : Nat) (k : SessionKey) :
    BridgeState × List ServerFrame × Bool :=
  match lookupBound st.bound k with
  | some _ => (st, [ServerFrame.error (errMsg BridgeErr.AttachConflictError)], false)
  | none =>
      match get_or_create spawnOk st.server k with
      | (sv, Except.ok _) =>
          ({ server := sv, bound := st.bound ++ [(k, conn)], pumps := st.pumps ++ [conn] },
           [ServerFrame.status true none], true)
      | (sv, Except.error e) =>
          ({ st with server := sv }, [ServerFrame.error (errMsg e)], false)

end TermBridge

namespace TermBridge

/-- Modelled from the spec: a `PtySession` together with the pty it owns —
the bytes written to the input side of the pty and the current window size. -/
structure SessionPty where
  session : PtySession
  ptyIn : List String
  size : Nat × Nat
deriving DecidableEq, Repr

/-- Modelled from the spec: `PtySession.write` (§4.2) of the absent server
component — forwards raw bytes to the pty while the process runs; a silent
no-op (logs only, no error) once the session is stopping or exited. -/
def write (s : SessionPty) (data : String) : SessionPty :=
  match s.session.phase with
  | SessionPhase.starting => { s with ptyIn := s.ptyIn ++ [data] }
  | SessionPhase.running => { s with ptyIn := s.ptyIn ++ [data] }
  | SessionPhase.stopping => s
  | SessionPhase.exited => s

/-- Modelled from the spec: `PtySession.resize` (§4.2) of the absent server
component — applies a window-size change immediately; a no-op once the
process has exited. -/
def resize (s : SessionPty) (cols rows : Nat) : SessionPty :=
  if s.session.alive then { s with size := (cols, rows) } else s

/-- Modelled from the spec: `PtySession.request_stop` (§4.2) — sends the
interrupt signal, moving a running session into Stopping; does not wait. -/
def request_stop (p : SessionPhase) : SessionPhase :=
  match p with
  | SessionPhase.starting => SessionPhase.stopping
  | SessionPhase.running => SessionPhase.stopping
  | p => p

/-- Modelled from the spec: the state a single Connection Bridge instance
(§4.4) tracks for one connection: the session and its pty, whether the
session is still registered, the frames sent to this client, whether the
connection is closed, whether the transport is still held, whether the two
pumps are running, and how many times `on_exit` has fired. -/
structure ConnState where
  pty : SessionPty
  registered : Bool
  toClient : List ServerFrame
  closed : Bool
  transportHeld : Bool
  pumpsActive : Bool
  exitFired : Nat
deriving DecidableEq, Repr

/-- Modelled from the spec: events a connection reacts to — client control
frames, pty output chunks, natural process exit, and connection close
(client-initiated or transport error). -/
inductive BridgeEv
  | clientInput (data : String)
  | clientResize (cols rows : Nat)
  | clientStop
  | clientKill
  | ptyChunk (data : String)
  | procExit
  | connClose
deriving DecidableEq, Repr

/-- Modelled from the spec: the `on_exit` path (§4.2, §4.4) — the sole
transition into Exited: marks the session exited, deregisters it
immediately, sends the final not-running status frame when the connection
is still open, then closes the connection and releases its resources. -/
def fireExit (st : ConnState) (reason : String) : ConnState :=
  { pty := { st.pty with session := { st.pty.session with phase := SessionPhase.exited } },
    registered := false,
    toClient :=
      if st.closed then st.toClient
      else st.toClient ++ [ServerFrame.status false (some reason)],
    closed := true,
    transportHeld := false,
    pumpsActive := false,
    exitFired := st.exitFired + 1 }

/-- Modelled from the spec: one step of the Connection Bridge (§4.4) — the
input pump dispatches client frames to the session operations, the output
pump wraps pty chunks as `output` frames in emission order, process exit
triggers `on_exit`, and connection close cancels both pumps and releases
the transport without killing the process. -/
def step (st : ConnState) : BridgeEv → ConnState
  | BridgeEv.clientInput data =>
      if st.closed then st else { st with pty := write st.pty data }
  | BridgeEv.clientResize cols rows =>
      if st.closed then st else { st with pty := resize st.pty cols rows }
  | BridgeEv.clientStop =>
      if st.closed then st
      else { st with pty := { st.pty with
        session := { st.pty.session with phase := request_stop st.pty.session.phase } } }
  | BridgeEv.clientKill =>
      if st.closed then st
      else if st.pty.session.alive then fireExit st "killed"
      else { st with closed := true, transportHeld := false, pumpsActive := false }
  | BridgeEv.ptyChunk data =>
      if st.closed || !st.pumpsActive || !st.pty.session.alive then st
      else { st with toClient := st.toClient ++ [ServerFrame.output data] }
  | BridgeEv.procExit =>
      if st.pty.session.alive then fireExit st "process exited" else st
  | BridgeEv.connClose =>
      { st with closed := true, transportHeld := false, pumpsActive := false }

/-- Processing of a sequence of connection events, in order. -/
def processEvents (st : ConnState) (evs : List BridgeEv) : ConnState :=
  evs.foldl step st

/-- The state of a connection just accepted for a key: session running,
registered, initial running status frame sent, both pumps active. -/
def openConn (k : SessionKey) (pid : Nat) : ConnState :=
  { pty := { session := { key := k, pid := pid, phase := SessionPhase.running },
             ptyIn := [], size := (80, 24) },
    registered := true,
    toClient := [ServerFrame.status true none],
    closed := false,
    transportHeld := true,
    pumpsActive := true,
    exitFired := 0 }

/-- Whether `pat` is a prefix of `s`, over character lists. -/
def hasPrefixC : List Char → List Char → Bool
  | _, [] => true
  | [], _ :: _ => false
  | a :: s, b :: p => a == b && hasPrefixC s p

/-- Whether `pat` occurs as a contiguous run inside `s`, over character
lists. -/
def hasSubstrC (s pat : List Char) : Bool :=
  match s with
  | [] => pat.isEmpty
  | _ :: rest => hasPrefixC s pat || hasSubstrC rest pat

/-- Whether `pat` occurs as a contiguous substring of `s`. -/
def containsText (s pat : String) : Bool :=
  hasSubstrC s.data pat.data

/-- The payload of an `output` frame; empty for other frames. -/
def outputData : ServerFrame → String
  | ServerFrame.output d => d
  | _ => ""

/-- The end-to-end scenario among the testable properties of the spec: after the
connection to ("proj-1","bash") is accepted, the client types a command,
the shell echoes it and prints its result, and the client sends `kill`. -/
def scenarioEvents : List BridgeEv :=
  [BridgeEv.clientInput "echo hi\n",
   BridgeEv.ptyChunk "echo hi\r\n",
   BridgeEv.ptyChunk "hi\r\n",
   BridgeEv.clientKill]

/-- The connection state of the end-to-end scenario after its events. -/
def scenarioEnd : ConnState :=
  processEvents (openConn { project_id := "proj-1", agent_id := "bash" } 7) scenarioEvents

/-- A concrete fresh server state. -/
def freshServer : ServerState :=
  { registry := [], nextPid := 1, spawned := 0 }

/-- A concrete fresh bridge state. -/
def freshBridge : BridgeState :=
  { server := freshServer, bound := [], pumps := [] }

/-- A concrete key for the generic shell agent. -/
def bashKey : SessionKey :=
  { project_id := "proj-1", agent_id := "bash" }

/-- A concrete exited session with its pty. -/
def exitedPty : SessionPty :=
  { session := { key := bashKey, pid := 7, phase := SessionPhase.exited },
    ptyIn := ["ls\n"], size := (80, 24) }

end TermBridge

namespace TermBridge

/-- The lifecycle invariant tying the exit notification count to the session
state: `on_exit` has fired exactly once iff the session has exited, never
more than once, and an exited session is no longer registered. -/
def ConnInv (st : ConnState) : Prop :=
  st.exitFired ≤ 1 ∧
  (st.pty.session.phase = SessionPhase.exited ↔ st.exitFired = 1) ∧
  (st.pty.session.phase = SessionPhase.exited → st.registered = false)

end TermBridge

/-- C10: each client-side send operation of the terminal component
(`sendInput`, `stop`, `kill`, `handleResize`) transmits a frame on the
WebSocket only when the socket readyState is OPEN; in any other socket
state the call is a no-op that changes nothing and sends nothing. -/
theorem C10_send_only_when_open (ws : BauhausTerminal.WsClient) (data : String)
    (cols rows : Nat) :
    ((BauhausTerminal.sendInput ws data).sent ≠ ws.sent →
        ws.readyState = BauhausTerminal.ReadyState.OPEN) ∧
    ((BauhausTerminal.stop ws).sent ≠ ws.sent →
        ws.readyState = BauhausTerminal.ReadyState.OPEN) ∧
    ((BauhausTerminal.kill ws).sent ≠ ws.sent →
        ws.readyState = BauhausTerminal.ReadyState.OPEN) ∧
    ((BauhausTerminal.handleResize ws cols rows).sent ≠ ws.sent →
        ws.readyState = BauhausTerminal.ReadyState.OPEN) ∧
    (ws.readyState ≠ BauhausTerminal.ReadyState.OPEN →
        BauhausTerminal.sendInput ws data = ws ∧
        BauhausTerminal.stop ws = ws ∧
        BauhausTerminal.kill ws = ws ∧
        BauhausTerminal.handleResize ws cols rows = ws) := by
  unfold BauhausTerminal.sendInput BauhausTerminal.stop BauhausTerminal.kill
    BauhausTerminal.handleResize
  by_cases h : ws.readyState = BauhausTerminal.ReadyState.OPEN <;> simp [h]

/-- Witness for C10 at a concrete closed socket: all four operations are
no-ops. -/
theorem C10_send_only_when_open_witness :
    BauhausTerminal.sendInput BauhausTerminal.closedClient.ws "ls" =
      BauhausTerminal.closedClient.ws ∧
    BauhausTerminal.stop BauhausTerminal.closedClient.ws = BauhausTerminal.closedClient.ws ∧
    BauhausTerminal.kill BauhausTerminal.closedClient.ws = BauhausTerminal.closedClient.ws ∧
    BauhausTerminal.handleResize BauhausTerminal.closedClient.ws 80 24 =
      BauhausTerminal.closedClient.ws :=
  (C10_send_only_when_open BauhausTerminal.closedClient.ws "ls" 80 24).2.2.2.2 (by decide)

/-- C8 counterexample: processing the malformed (non-JSON) message "garbage"
does not drop it — the raw data is written to the terminal — and no warning
is logged, so the claim fails at this concrete input. -/
theorem C8_counterexample_not_dropped :
    ¬ ((BauhausTerminal.onmessage BauhausTerminal.freshClient
          (BauhausTerminal.ClientEvent.notJson "garbage")).term.screen
            = BauhausTerminal.freshClient.term.screen ∧
       (BauhausTerminal.onmessage BauhausTerminal.freshClient
          (BauhausTerminal.ClientEvent.notJson "garbage")).term.warnings
            ≠ BauhausTerminal.freshClient.term.warnings) := by
  decide

/-- C8 (amended): the client onmessage handler never terminates the
connection on unknown or malformed frames and logs no warning: JSON frames
with an unrecognised type are silently ignored, non-JSON data is written
raw to the terminal, the socket is untouched, and subsequent frames are
processed normally. -/
theorem C8_amended_unknown_frames (c : BauhausTerminal.ClientState) (raw : String)
    (evs : List BauhausTerminal.ClientEvent) :
    BauhausTerminal.onmessage c (BauhausTerminal.ClientEvent.unknownType raw) = c ∧
    (BauhausTerminal.onmessage c (BauhausTerminal.ClientEvent.notJson raw)).term.screen
      = c.term.screen ++ [raw] ∧
    (BauhausTerminal.onmessage c (BauhausTerminal.ClientEvent.notJson raw)).term.warnings
      = c.term.warnings ∧
    (BauhausTerminal.onmessage c (BauhausTerminal.ClientEvent.notJson raw)).ws = c.ws ∧
    BauhausTerminal.processMessages c (BauhausTerminal.ClientEvent.notJson raw :: evs)
      = BauhausTerminal.processMessages
          (BauhausTerminal.onmessage c (BauhausTerminal.ClientEvent.notJson raw)) evs :=
  ⟨rfl, rfl, rfl, rfl, rfl⟩

/-- C6: once the session has exited, `write` and `resize` complete as silent
no-ops — the state is returned unchanged, no error is produced, and the
session is not revived. -/
theorem C6_post_exit_noop (s : TermBridge.SessionPty) (data : String) (cols rows : Nat)
    (h : s.session.phase = TermBridge.SessionPhase.exited) :
    TermBridge.write s data = s ∧ TermBridge.resize s cols rows = s := by
  constructor
  · unfold TermBridge.write
    rw [h]
  · unfold TermBridge.resize
    simp [TermBridge.PtySession.alive, h]

/-- Witness for C6 at a concrete exited session. -/
theorem C6_post_exit_noop_witness :
    TermBridge.write TermBridge.exitedPty "ls\n" = TermBridge.exitedPty ∧
    TermBridge.resize TermBridge.exitedPty 120 40 = TermBridge.exitedPty :=
  C6_post_exit_noop TermBridge.exitedPty "ls\n" 120 40 (by decide)

/-- C3: a connection close that is not a kill frame (client-initiated close
or transport error) cancels both pumps of the connection and releases the
transport, while the session, its pty, its registration and its exit count
are untouched — the underlying process is never killed by a close. -/
theorem C3_close_leaves_process_running (st : TermBridge.ConnState) :
    (TermBridge.step st TermBridge.BridgeEv.connClose).pumpsActive = false ∧
    (TermBridge.step st TermBridge.BridgeEv.connClose).transportHeld = false ∧
    (TermBridge.step st TermBridge.BridgeEv.connClose).closed = true ∧
    (TermBridge.step st TermBridge.BridgeEv.connClose).pty = st.pty ∧
    (TermBridge.step st TermBridge.BridgeEv.connClose).registered = st.registered ∧
    (TermBridge.step st TermBridge.BridgeEv.connClose).exitFired = st.exitFired :=
  ⟨rfl, rfl, rfl, rfl, rfl, rfl⟩

/-- C2: when a connection is already bound to the key of a live session, a
second connection attempt is refused with the AttachConflictError message in
an `error` frame, the connection is not accepted, and the whole bridge
state — registry, bindings and pumps — is returned unchanged, so the first
connection is undisturbed. -/
theorem C2_attach_conflict_refused (spawnOk : String → Bool)
    (st : TermBridge.BridgeState) (conn c : Nat) (k : TermBridge.SessionKey)
    (hne : conn ≠ c) (hb : TermBridge.lookupBound st.bound k = some c) :
    TermBridge.connect spawnOk st conn k
      = (st,
         [TermBridge.ServerFrame.error (TermBridge.errMsg TermBridge.BridgeErr.AttachConflictError)],
         false) := by
  unfold TermBridge.connect
  rw [hb]

/-- Witness for C2: with connection 1 bound to the bash key, connection 2 is
refused and nothing changes. -/
theorem C2_attach_conflict_refused_witness :
    TermBridge.connect (fun _ => true)
      { server := TermBridge.freshServer, bound := [(TermBridge.bashKey, 1)], pumps := [1] }
      2 TermBridge.bashKey
      = ({ server := TermBridge.freshServer, bound := [(TermBridge.bashKey, 1)], pumps := [1] },
         [TermBridge.ServerFrame.error (TermBridge.errMsg TermBridge.BridgeErr.AttachConflictError)],
         false) :=
  C2_attach_conflict_refused (fun _ => true)
    { server := TermBridge.freshServer, bound := [(TermBridge.bashKey, 1)], pumps := [1] }
    2 1 TermBridge.bashKey (by decide) (by decide)

/-- C9: a connection attempt whose agent id is outside the closed AGENTS set
is rejected with ConfigurationError before any process exists (the server
state, spawn count included, is unchanged); a spawn failure for a known
agent yields LaunchError; in both cases the client receives an `error`
frame, the connection is not accepted, and no session is registered. -/
theorem C9_launch_errors (spawnOk : String → Bool) (st : TermBridge.BridgeState)
    (conn : Nat) (k : TermBridge.SessionKey)
    (hnb : TermBridge.lookupBound st.bound k = none)
    (hnl : TermBridge.findLive st.server.registry k = none) :
    (k.agent_id ∉ AGENTS →
        TermBridge.launch spawnOk st.server k
          = (st.server,
             Except.error (TermBridge.BridgeErr.ConfigurationError k.agent_id)) ∧
        TermBridge.connect spawnOk st conn k
          = (st,
             [TermBridge.ServerFrame.error
                (TermBridge.errMsg (TermBridge.BridgeErr.ConfigurationError k.agent_id))],
             false)) ∧
    (k.agent_id ∈ AGENTS → spawnOk k.agent_id = false →
        TermBridge.launch spawnOk st.server k
          = (st.server, Except.error (TermBridge.BridgeErr.LaunchError k.agent_id)) ∧
        TermBridge.connect spawnOk st conn k
          = (st,
             [TermBridge.ServerFrame.error
                (TermBridge.errMsg (TermBridge.BridgeErr.LaunchError k.agent_id))],
             false)) := by
  constructor
  · intro hbad
    have hl : TermBridge.launch spawnOk st.server k
        = (st.server, Except.error (TermBridge.BridgeErr.ConfigurationError k.agent_id)) := by
      unfold TermBridge.launch TermBridge.resolveAgent
      simp [hbad]
    refine ⟨hl, ?_⟩
    unfold TermBridge.connect
    rw [hnb]
    unfold TermBridge.get_or_create
    rw [hnl, hl]
  · intro hmem hfail
    have hl : TermBridge.launch spawnOk st.server k
        = (st.server, Except.error (TermBridge.BridgeErr.LaunchError k.agent_id)) := by
      unfold TermBridge.launch TermBridge.resolveAgent
      simp [hmem, hfail]
    refine ⟨hl, ?_⟩
    unfold TermBridge.connect
    rw [hnb]
    unfold TermBridge.get_or_create
    rw [hnl, hl]

/-- Witness for C9: the unknown agent id zsh is rejected with
ConfigurationError, and a failing spawn of the known agent bash yields
LaunchError; in both cases the fresh bridge state is unchanged. -/
theorem C9_launch_errors_witness :
    TermBridge.connect (fun _ => false) TermBridge.freshBridge 1
        { project_id := "p", agent_id := "zsh" }
      = (TermBridge.freshBridge,
         [TermBridge.ServerFrame.error
            (TermBridge.errMsg (TermBridge.BridgeErr.ConfigurationError "zsh"))],
         false) ∧
    TermBridge.connect (fun _ => false) TermBridge.freshBridge 1 TermBridge.bashKey
      = (TermBridge.freshBridge,
         [TermBridge.ServerFrame.error
            (TermBridge.errMsg (TermBridge.BridgeErr.LaunchError "bash"))],
         false) :=
  ⟨((C9_launch_errors (fun _ => false) TermBridge.freshBridge 1
      { project_id := "p", agent_id := "zsh" } (by decide) (by decide)).1 (by decide)).2,
   ((C9_launch_errors (fun _ => false) TermBridge.freshBridge 1
      TermBridge.bashKey (by decide) (by decide)).2 (by decide) rfl).2⟩

/-- On an open connection with active pumps and a live session, a pty chunk
is forwarded as exactly one `output` frame appended to the client stream. -/
theorem step_ptyChunk_open (st : TermBridge.ConnState) (d : String)
    (hc : st.closed = false) (hp : st.pumpsActive = true)
    (ha : st.pty.session.alive = true) :
    TermBridge.step st (TermBridge.BridgeEv.ptyChunk d)
      = { st with toClient := st.toClient ++ [TermBridge.ServerFrame.output d] } := by
  unfold TermBridge.step
  simp [hc, hp, ha]

/-- Output pump over a chunk sequence: every chunk becomes one `output`
frame, in emission order, nothing lost and nothing reordered. -/
theorem processEvents_ptyChunks (chunks : List String) (st : TermBridge.ConnState)
    (hc : st.closed = false) (hp : st.pumpsActive = true)
    (ha : st.pty.session.alive = true) :
    TermBridge.processEvents st (chunks.map TermBridge.BridgeEv.ptyChunk)
      = { st with toClient := st.toClient ++ chunks.map TermBridge.ServerFrame.output } := by
  induction chunks generalizing st with
  | nil => simp [TermBridge.processEvents]
  | cons c cs ih =>
      have hstep := step_ptyChunk_open st c hc hp ha
      have h2 := ih { st with toClient := st.toClient ++ [TermBridge.ServerFrame.output c] }
        hc hp ha
      simp only [List.map_cons, TermBridge.processEvents, List.foldl_cons] at h2 ⊢
      rw [hstep, h2]
      simp

/-- C4: output frames delivered to the client preserve the emission order of
the pty with no reordering and no loss — processing the chunk sequence
appends exactly one `output` frame per chunk in order, and the concatenated
payload of the delivered frames equals the concatenation of the chunks. -/
theorem C4_output_order_preserved (chunks : List String) (st : TermBridge.ConnState)
    (hc : st.closed = false) (hp : st.pumpsActive = true)
    (ha : st.pty.session.alive = true) :
    (TermBridge.processEvents st (chunks.map TermBridge.BridgeEv.ptyChunk)).toClient
      = st.toClient ++ chunks.map TermBridge.ServerFrame.output ∧
    String.join
        (((TermBridge.processEvents st
            (chunks.map TermBridge.BridgeEv.ptyChunk)).toClient.drop
          st.toClient.length).map TermBridge.outputData)
      = String.join chunks := by
  have h := processEvents_ptyChunks chunks st hc hp ha
  constructor
  · rw [h]
  · rw [h]
    simp only [List.drop_left, List.map_map]
    have hid : (TermBridge.outputData ∘ TermBridge.ServerFrame.output) = fun d => d := by
      funext d
      rfl
    rw [hid, List.map_id']

/-- Witness for C4: chunks A, B, C on a fresh open connection arrive as
three ordered output frames whose concatenated payload is ABC. -/
theorem C4_output_order_preserved_witness :
    (TermBridge.processEvents (TermBridge.openConn TermBridge.bashKey 7)
        (["A", "B", "C"].map TermBridge.BridgeEv.ptyChunk)).toClient
      = (TermBridge.openConn TermBridge.bashKey 7).toClient
          ++ ["A", "B", "C"].map TermBridge.ServerFrame.output ∧
    String.join
        (((TermBridge.processEvents (TermBridge.openConn TermBridge.bashKey 7)
            (["A", "B", "C"].map TermBridge.BridgeEv.ptyChunk)).toClient.drop
          (TermBridge.openConn TermBridge.bashKey 7).toClient.length).map
          TermBridge.outputData)
      = "ABC" :=
  ⟨(C4_output_order_preserved ["A", "B", "C"] (TermBridge.openConn TermBridge.bashKey 7)
      rfl rfl rfl).1,
   by
    have h := (C4_output_order_preserved ["A", "B", "C"]
      (TermBridge.openConn TermBridge.bashKey 7) rfl rfl rfl).2
    rw [h]
    decide⟩

/-- C5: the end-to-end frame order of a successful connection: an accepted
connect emits `status` running true as its only (hence first) frame; in the
concrete scenario the typed input echo hi is forwarded to the pty, the
resulting output frames concatenate to text containing hi, and the kill
frame makes the final delivered frame a `status` running false after which
the connection is closed, with `on_exit` having fired exactly once. -/
theorem C5_end_to_end_scenario (spawnOk : String → Bool) (st : TermBridge.BridgeState)
    (conn : Nat) (k : TermBridge.SessionKey) (sv : TermBridge.ServerState)
    (s : TermBridge.PtySession)
    (hnb : TermBridge.lookupBound st.bound k = none)
    (hok : TermBridge.get_or_create spawnOk st.server k = (sv, Except.ok s)) :
    (TermBridge.connect spawnOk st conn k).2.1 = [TermBridge.ServerFrame.status true none] ∧
    (TermBridge.connect spawnOk st conn k).2.2 = true ∧
    TermBridge.scenarioEnd.pty.ptyIn = ["echo hi\n"] ∧
    TermBridge.scenarioEnd.toClient.head? = some (TermBridge.ServerFrame.status true none) ∧
    TermBridge.containsText
        (String.join ((TermBridge.scenarioEnd.toClient.drop 1).map TermBridge.outputData))
        "hi" = true ∧
    TermBridge.scenarioEnd.toClient.getLast?
      = some (TermBridge.ServerFrame.status false (some "killed")) ∧
    TermBridge.scenarioEnd.closed = true ∧
    TermBridge.scenarioEnd.exitFired = 1 := by
  refine ⟨?_, ?_, by decide, by decide, by decide, by decide, by decide, by decide⟩
  · unfold TermBridge.connect
    rw [hnb, hok]
  · unfold TermBridge.connect
    rw [hnb, hok]

/-- Witness for C5: connecting to the bash key on a fresh bridge is accepted
with the initial running status frame, and the scenario run ends closed with
one exit notification. -/
theorem C5_end_to_end_scenario_witness :
    (TermBridge.connect (fun _ => true) TermBridge.freshBridge 1 TermBridge.bashKey).2.1
      = [TermBridge.ServerFrame.status true none] ∧
    TermBridge.scenarioEnd.closed = true ∧
    TermBridge.scenarioEnd.exitFired = 1 :=
  ⟨(C5_end_to_end_scenario (fun _ => true) TermBridge.freshBridge 1 TermBridge.bashKey
      _ _ rfl rfl).1,
   (C5_end_to_end_scenario (fun _ => true) TermBridge.freshBridge 1 TermBridge.bashKey
      _ _ rfl rfl).2.2.2.2.2.2.1,
   (C5_end_to_end_scenario (fun _ => true) TermBridge.freshBridge 1 TermBridge.bashKey
      _ _ rfl rfl).2.2.2.2.2.2.2⟩

/-- Finding in an appended list skips a first part in which nothing
matches. -/
theorem find?_append_none {α : Type} (p : α → Bool) (l₁ l₂ : List α)
    (h : l₁.find? p = none) : (l₁ ++ l₂).find? p = l₂.find? p := by
  induction l₁ with
  | nil => rfl
  | cons a l ih =>
      cases hp : p a with
      | true =>
          rw [List.find?_cons_of_pos _ hp] at h
          exact absurd h (by simp)
      | false =>
          have hp' : ¬ p a = true := by simp [hp]
          rw [List.find?_cons_of_neg _ hp'] at h
          rw [List.cons_append, List.find?_cons_of_neg _ hp']
          exact ih h

/-- Live-session counts add over registry concatenation. -/
theorem liveCount_append (reg₁ reg₂ : List TermBridge.PtySession)
    (k : TermBridge.SessionKey) :
    TermBridge.liveCount (reg₁ ++ reg₂) k
      = TermBridge.liveCount reg₁ k + TermBridge.liveCount reg₂ k := by
  unfold TermBridge.liveCount
  rw [List.filter_append, List.length_append]

/-- When no live session is found for a key, the live count for that key is
zero. -/
theorem findLive_none_liveCount (reg : List TermBridge.PtySession)
    (k : TermBridge.SessionKey) (h : TermBridge.findLive reg k = none) :
    TermBridge.liveCount reg k = 0 := by
  unfold TermBridge.findLive at h
  unfold TermBridge.liveCount
  rw [List.find?_eq_none] at h
  rw [List.length_eq_zero, List.filter_eq_nil_iff]
  exact h

/-- Once a live session for the key is registered, every further
`get_or_create` is a pure lookup: the state is unchanged and every caller
receives the same session. -/
theorem callN_stable (spawnOk : String → Bool) (st : TermBridge.ServerState)
    (k : TermBridge.SessionKey) (s : TermBridge.PtySession)
    (h : TermBridge.findLive st.registry k = some s) :
    ∀ n : Nat, TermBridge.callN spawnOk st k n = (st, List.replicate n (Except.ok s)) := by
  intro n
  induction n with
  | zero => rfl
  | succ m ih =>
      have hg : TermBridge.get_or_create spawnOk st k = (st, Except.ok s) := by
        unfold TermBridge.get_or_create
        rw [h]
      simp [TermBridge.callN, hg, ih, List.replicate_succ]

/-- C1: per-key session uniqueness of the registry. First, `get_or_create`
preserves the invariant that at most one live session is registered per
key. Second, it spawns only when no live session for the key is registered,
so a new session requires the prior one to have exited (and been removed)
first. Third, under the serialization the spec requires of same-key
callers, N calls with the same key perform exactly one spawn — the spawn
count rises by one — and every one of the N callers receives the very same
session. -/
theorem C1_at_most_one_session_per_key (spawnOk : String → Bool)
    (st : TermBridge.ServerState) (k : TermBridge.SessionKey) :
    (TermBridge.AtMostOneLive st.registry →
        TermBridge.AtMostOneLive (TermBridge.get_or_create spawnOk st k).1.registry) ∧
    ((TermBridge.get_or_create spawnOk st k).1.spawned ≠ st.spawned →
        TermBridge.findLive st.registry k = none) ∧
    (k.agent_id ∈ AGENTS → spawnOk k.agent_id = true →
        TermBridge.findLive st.registry k = none →
        ∀ n : Nat,
          TermBridge.callN spawnOk st k (n + 1)
            = ({ registry := st.registry
                  ++ [{ key := k, pid := st.nextPid,
                        phase := TermBridge.SessionPhase.running }],
                 nextPid := st.nextPid + 1,
                 spawned := st.spawned + 1 },
               List.replicate (n + 1)
                 (Except.ok
                   { key := k, pid := st.nextPid,
                     phase := TermBridge.SessionPhase.running }))) := by
  refine ⟨?_, ?_, ?_⟩
  · intro h
    cases hfl : TermBridge.findLive st.registry k with
    | some s =>
        simp only [TermBridge.get_or_create, hfl]
        exact h
    | none =>
        simp only [TermBridge.get_or_create, hfl, TermBridge.launch]
        cases hr : TermBridge.resolveAgent k.agent_id with
        | none => exact h
        | some exe =>
            by_cases hs : spawnOk exe
            · simp only [hs, if_true]
              intro k'
              rw [liveCount_append]
              by_cases hk : k' = k
              · subst hk
                rw [findLive_none_liveCount st.registry k' hfl]
                simp [TermBridge.liveCount, List.filter, TermBridge.PtySession.alive]
              · have hkk : decide (k = k') = false :=
                  decide_eq_false (fun hkk => hk hkk.symm)
                have h0 : TermBridge.liveCount
                    [{ key := k, pid := st.nextPid,
                       phase := TermBridge.SessionPhase.running }] k' = 0 := by
                  simp [TermBridge.liveCount, List.filter, TermBridge.PtySession.alive, hkk]
                rw [h0]
                simpa using h k'
            · simp only [hs, if_false]
              exact h
  · intro h
    cases hfl : TermBridge.findLive st.registry k with
    | none => rfl
    | some s =>
        exfalso
        apply h
        simp [TermBridge.get_or_create, hfl]
  · intro hmem hsp hfl n
    have hg : TermBridge.get_or_create spawnOk st k
        = ({ registry := st.registry
              ++ [{ key := k, pid := st.nextPid,
                    phase := TermBridge.SessionPhase.running }],
             nextPid := st.nextPid + 1,
             spawned := st.spawned + 1 },
           Except.ok
             { key := k, pid := st.nextPid,
               phase := TermBridge.SessionPhase.running }) := by
      simp [TermBridge.get_or_create, hfl, TermBridge.launch, TermBridge.resolveAgent,
        hmem, hsp]
    have hfind : TermBridge.findLive
        (st.registry
          ++ [{ key := k, pid := st.nextPid,
                phase := TermBridge.SessionPhase.running }]) k
        = some { key := k, pid := st.nextPid,
                 phase := TermBridge.SessionPhase.running } := by
      unfold TermBridge.findLive at hfl ⊢
      rw [find?_append_none _ _ _ hfl]
      rw [List.find?_cons_of_pos]
      simp [TermBridge.PtySession.alive]
    have hstable := callN_stable spawnOk
      { registry := st.registry
          ++ [{ key := k, pid := st.nextPid,
                phase := TermBridge.SessionPhase.running }],
        nextPid := st.nextPid + 1,
        spawned := st.spawned + 1 } k
      { key := k, pid := st.nextPid, phase := TermBridge.SessionPhase.running }
      hfind n
    simp only [TermBridge.callN, hg, hstable, List.replicate_succ]

/-- Witness for C1: on a fresh server, three serialized calls for the bash
key spawn exactly one process and hand all three callers the same
session. -/
theorem C1_at_most_one_session_per_key_witness :
    TermBridge.callN (fun _ => true) TermBridge.freshServer TermBridge.bashKey 3
      = ({ registry := [{ key := TermBridge.bashKey, pid := 1,
                          phase := TermBridge.SessionPhase.running }],
           nextPid := 2, spawned := 1 },
         List.replicate 3
           (Except.ok { key := TermBridge.bashKey, pid := 1,
                        phase := TermBridge.SessionPhase.running })) := by
  have h := (C1_at_most_one_session_per_key (fun _ => true) TermBridge.freshServer
    TermBridge.bashKey).2.2 (by decide) rfl rfl 2
  simpa using h

/-- Writing to the pty never changes the session itself. -/
theorem write_session (s : TermBridge.SessionPty) (d : String) :
    (TermBridge.write s d).session = s.session := by
  unfold TermBridge.write
  cases h : s.session.phase <;> rfl

/-- Resizing the pty never changes the session itself. -/
theorem resize_session (s : TermBridge.SessionPty) (cols rows : Nat) :
    (TermBridge.resize s cols rows).session = s.session := by
  unfold TermBridge.resize
  by_cases h : s.session.alive <;> simp [h]

/-- The graceful stop request never reaches the Exited phase by itself. -/
theorem request_stop_exited (p : TermBridge.SessionPhase) :
    TermBridge.request_stop p = TermBridge.SessionPhase.exited
      ↔ p = TermBridge.SessionPhase.exited := by
  cases p <;> simp [TermBridge.request_stop]

/-- A session is not alive exactly when its phase is Exited. -/
theorem alive_false_iff (s : TermBridge.PtySession) :
    s.alive = false ↔ s.phase = TermBridge.SessionPhase.exited := by
  cases h : s.phase <;> simp [TermBridge.PtySession.alive, h]

/-- Every step of the bridge preserves the exit-notification invariant. -/
theorem fireExit_ConnInv (st : TermBridge.ConnState) (r : String)
    (h1 : st.exitFired ≤ 1)
    (h2 : st.pty.session.phase = TermBridge.SessionPhase.exited ↔ st.exitFired = 1)
    (ha : st.pty.session.alive = true) :
    TermBridge.ConnInv (TermBridge.fireExit st r) := by
  have hph : st.pty.session.phase ≠ TermBridge.SessionPhase.exited := by
    intro e
    have hf := (alive_false_iff st.pty.session).mpr e
    rw [hf] at ha
    exact Bool.false_ne_true ha
  have hne1 : st.exitFired ≠ 1 := fun e => hph (h2.mpr e)
  have hf0 : st.exitFired = 0 := by omega
  unfold TermBridge.ConnInv TermBridge.fireExit
  refine ⟨?_, ?_, ?_⟩
  · show st.exitFired + 1 ≤ 1
    omega
  · constructor
    · intro _
      show st.exitFired + 1 = 1
      omega
    · intro _
      rfl
  · intro _
    rfl

theorem step_ConnInv (st : TermBridge.ConnState) (ev : TermBridge.BridgeEv)
    (h : TermBridge.ConnInv st) : TermBridge.ConnInv (TermBridge.step st ev) := by
  obtain ⟨h1, h2, h3⟩ := h
  cases ev with
  | clientInput d =>
      simp only [TermBridge.step]
      split
      · exact ⟨h1, h2, h3⟩
      · exact ⟨h1, by simpa [write_session] using h2,
          by simpa [write_session] using h3⟩
  | clientResize cols rows =>
      simp only [TermBridge.step]
      split
      · exact ⟨h1, h2, h3⟩
      · exact ⟨h1, by simpa [resize_session] using h2,
          by simpa [resize_session] using h3⟩
  | clientStop =>
      simp only [TermBridge.step]
      split
      · exact ⟨h1, h2, h3⟩
      · exact ⟨h1, by simpa [request_stop_exited] using h2,
          by simpa [request_stop_exited] using h3⟩
  | clientKill =>
      simp only [TermBridge.step]
      split
      · exact ⟨h1, h2, h3⟩
      · split
        · rename_i ha
          exact fireExit_ConnInv st _ h1 h2 ha
        · exact ⟨h1, h2, h3⟩
  | ptyChunk d =>
      simp only [TermBridge.step]
      split
      · exact ⟨h1, h2, h3⟩
      · exact ⟨h1, h2, h3⟩
  | procExit =>
      simp only [TermBridge.step]
      split
      · rename_i ha
        exact fireExit_ConnInv st _ h1 h2 ha
      · exact ⟨h1, h2, h3⟩
  | connClose =>
      simp only [TermBridge.step]
      exact ⟨h1, h2, h3⟩

/-- Exited is terminal: no step leaves it, and no further notification
fires once it is reached. -/
theorem step_exited_terminal (st : TermBridge.ConnState) (ev : TermBridge.BridgeEv)
    (h : st.pty.session.phase = TermBridge.SessionPhase.exited) :
    (TermBridge.step st ev).pty.session.phase = TermBridge.SessionPhase.exited ∧
    (TermBridge.step st ev).exitFired = st.exitFired := by
  have ha : st.pty.session.alive = false := (alive_false_iff _).mpr h
  cases ev with
  | clientInput d =>
      simp only [TermBridge.step]
      split
      · exact ⟨h, rfl⟩
      · exact ⟨by rw [write_session]; exact h, rfl⟩
  | clientResize cols rows =>
      simp only [TermBridge.step]
      split
      · exact ⟨h, rfl⟩
      · exact ⟨by rw [resize_session]; exact h, rfl⟩
  | clientStop =>
      simp only [TermBridge.step]
      split
      · exact ⟨h, rfl⟩
      · exact ⟨(request_stop_exited _).mpr h, rfl⟩
  | clientKill =>
      simp only [TermBridge.step]
      split
      · exact ⟨h, rfl⟩
      · split
        · rename_i ha'
          rw [ha] at ha'
          exact absurd ha' Bool.false_ne_true
        · exact ⟨h, rfl⟩
  | ptyChunk d =>
      simp only [TermBridge.step]
      split
      · exact ⟨h, rfl⟩
      · exact ⟨h, rfl⟩
  | procExit =>
      simp only [TermBridge.step]
      split
      · rename_i ha'
        rw [ha] at ha'
        exact absurd ha' Bool.false_ne_true
      · exact ⟨h, rfl⟩
  | connClose =>
      simp only [TermBridge.step]
      exact ⟨h, trivial⟩

/-- Event processing preserves the exit-notification invariant. -/
theorem processEvents_ConnInv (evs : List TermBridge.BridgeEv)
    (st : TermBridge.ConnState) (h : TermBridge.ConnInv st) :
    TermBridge.ConnInv (TermBridge.processEvents st evs) := by
  induction evs generalizing st with
  | nil => exact h
  | cons e es ih => exact ih _ (step_ConnInv st e h)

/-- Whole event sequences keep an exited session exited and fire no further
notification. -/
theorem processEvents_exited_terminal (evs : List TermBridge.BridgeEv)
    (st : TermBridge.ConnState)
    (h : st.pty.session.phase = TermBridge.SessionPhase.exited) :
    (TermBridge.processEvents st evs).pty.session.phase
      = TermBridge.SessionPhase.exited ∧
    (TermBridge.processEvents st evs).exitFired = st.exitFired := by
  induction evs generalizing st with
  | nil => exact ⟨h, rfl⟩
  | cons e es ih =>
      obtain ⟨hp, hf⟩ := step_exited_terminal st e h
      obtain ⟨hp', hf'⟩ := ih _ hp
      exact ⟨hp', hf'.trans hf⟩

/-- A process-exit event always leaves the session exited with the
notification count at one. -/
theorem step_procExit_fired (st : TermBridge.ConnState) (h : TermBridge.ConnInv st) :
    (TermBridge.step st TermBridge.BridgeEv.procExit).pty.session.phase
      = TermBridge.SessionPhase.exited ∧
    (TermBridge.step st TermBridge.BridgeEv.procExit).exitFired = 1 := by
  obtain ⟨h1, h2, h3⟩ := h
  simp only [TermBridge.step]
  split
  · rename_i ha
    have hph : st.pty.session.phase ≠ TermBridge.SessionPhase.exited := by
      intro e
      have hf := (alive_false_iff st.pty.session).mpr e
      rw [hf] at ha
      exact Bool.false_ne_true ha
    have hne1 : st.exitFired ≠ 1 := fun e => hph (h2.mpr e)
    unfold TermBridge.fireExit
    refine ⟨rfl, ?_⟩
    show st.exitFired + 1 = 1
    omega
  · rename_i ha
    have ha' : st.pty.session.alive = false := by
      cases hb : st.pty.session.alive
      · rfl
      · exact absurd hb ha
    have hph := (alive_false_iff _).mp ha'
    exact ⟨hph, h2.mp hph⟩

/-- C7: starting from a live session with no notification yet, any event
sequence fires `on_exit` at most once; the notification has fired exactly
once precisely when the session is in the terminal Exited phase; an exited
session is deregistered; Exited is irreversible; and if the process exit
event occurs — after a natural death, an ignored stop, or a kill — exactly
one notification has fired by the end. -/
theorem C7_exit_exactly_once (st : TermBridge.ConnState) (evs : List TermBridge.BridgeEv)
    (ha : st.pty.session.phase ≠ TermBridge.SessionPhase.exited)
    (hf : st.exitFired = 0) :
    (TermBridge.processEvents st evs).exitFired ≤ 1 ∧
    ((TermBridge.processEvents st evs).pty.session.phase = TermBridge.SessionPhase.exited
      ↔ (TermBridge.processEvents st evs).exitFired = 1) ∧
    ((TermBridge.processEvents st evs).pty.session.phase = TermBridge.SessionPhase.exited →
      (TermBridge.processEvents st evs).registered = false) ∧
    (TermBridge.BridgeEv.procExit ∈ evs →
      (TermBridge.processEvents st evs).exitFired = 1 ∧
      (TermBridge.processEvents st evs).pty.session.phase
        = TermBridge.SessionPhase.exited) := by
  have hin : TermBridge.ConnInv st := by
    refine ⟨by omega, ⟨fun e => absurd e ha, fun e => by omega⟩, fun e => absurd e ha⟩
  obtain ⟨e1, e2, e3⟩ := processEvents_ConnInv evs st hin
  refine ⟨e1, e2, e3, ?_⟩
  intro hmem
  obtain ⟨l1, l2, rfl⟩ := List.append_of_mem hmem
  have hmid : TermBridge.ConnInv (TermBridge.processEvents st l1) :=
    processEvents_ConnInv l1 st hin
  obtain ⟨hp, hfd⟩ := step_procExit_fired _ hmid
  have hsplit : TermBridge.processEvents st (l1 ++ TermBridge.BridgeEv.procExit :: l2)
      = TermBridge.processEvents
          (TermBridge.step (TermBridge.processEvents st l1)
            TermBridge.BridgeEv.procExit) l2 := by
    unfold TermBridge.processEvents
    rw [List.foldl_append]
    rfl
  rw [hsplit]
  obtain ⟨hp', hfd'⟩ := processEvents_exited_terminal l2 _ hp
  exact ⟨hfd'.trans hfd, hp'⟩

/-- Witness for C7: after a stop request and two process-exit events (the
second a duplicate), the session of an open bash connection is exited and
`on_exit` has fired exactly once. -/
theorem C7_exit_exactly_once_witness :
    (TermBridge.processEvents (TermBridge.openConn TermBridge.bashKey 7)
        [TermBridge.BridgeEv.clientStop, TermBridge.BridgeEv.procExit,
         TermBridge.BridgeEv.procExit]).exitFired = 1 ∧
    (TermBridge.processEvents (TermBridge.openConn TermBridge.bashKey 7)
        [TermBridge.BridgeEv.clientStop, TermBridge.BridgeEv.procExit,
         TermBridge.BridgeEv.procExit]).pty.session.phase
      = TermBridge.SessionPhase.exited :=
  (C7_exit_exactly_once (TermBridge.openConn TermBridge.bashKey 7)
      [TermBridge.BridgeEv.clientStop, TermBridge.BridgeEv.procExit,
       TermBridge.BridgeEv.procExit] (by decide) rfl).2.2.2 (by decide)
